import Mathlib

/-!
Verification development for the scrubexif auto-mode pipeline
(`src/scrubexif/scrub.py`).  The Python source is shallowly embedded:
pure helpers become Lean functions on `String`/`Nat`/`Int`; filesystem
probes (`stat`, `exists`, `is_symlink`, path resolution) become explicit
inputs; the mutations a call performs are returned as an explicit effect
list; a Python exception escaping a function is modelled as
`Except.error`.  Wall-clock times are integers (seconds); run durations
are naturals (milliseconds).
-/

namespace ScrubExif

/-! ### Decimal rendering of naturals (Python `f"{n}"` / `str(n)`) -/

/-- Character for one decimal digit value below ten. -/
def digitChar10 : Nat → Char
  | 0 => '0'
  | 1 => '1'
  | 2 => '2'
  | 3 => '3'
  | 4 => '4'
  | 5 => '5'
  | 6 => '6'
  | 7 => '7'
  | 8 => '8'
  | 9 => '9'
  | _ => '!'

/-- Numeric value of a decimal digit character (inverse of `digitChar10`). -/
def digitVal10 (c : Char) : Nat :=
  match c with
  | '0' => 0
  | '1' => 1
  | '2' => 2
  | '3' => 3
  | '4' => 4
  | '5' => 5
  | '6' => 6
  | '7' => 7
  | '8' => 8
  | '9' => 9
  | _ => 0

/-- Little-endian decimal digits of `n`, with explicit fuel so the
recursion is structural (fuel `n` is always sufficient). -/
def natDigitsAux : Nat → Nat → List Char
  | 0, _ => []
  | fuel + 1, n => if n = 0 then [] else digitChar10 (n % 10) :: natDigitsAux fuel (n / 10)

/-- Decimal rendering of a natural number, as Python renders a
nonnegative `int` in an f-string. -/
def natDecimal (n : Nat) : String :=
  if n = 0 then "0" else String.mk (natDigitsAux n n).reverse

/-- Value of a little-endian decimal digit list. -/
def decimalValLE : List Char → Nat
  | [] => 0
  | c :: cs => digitVal10 c + 10 * decimalValLE cs

/-- Reads back the number rendered by `natDecimal`. -/
def natDecimalVal (s : String) : Nat := decimalValLE s.data.reverse

/-! ### Python string helpers used by the source -/

/-- `p` is a prefix of `s`, at the character-list level
(Python `str.startswith`). -/
def startsWithChars : List Char → List Char → Bool
  | [], _ => true
  | _ :: _, [] => false
  | p :: ps, c :: cs => p = c && startsWithChars ps cs

/-- Python `s.startswith(pat)`. -/
def pyStartsWith (s pat : String) : Bool := startsWithChars pat.data s.data

/-- Python `s.endswith(pat)`. -/
def pyEndsWith (s pat : String) : Bool := startsWithChars pat.data.reverse s.data.reverse

/-- ASCII whitespace stripped by Python `str.strip()`. -/
def isPySpace (c : Char) : Bool :=
  c = ' ' || c = '\t' || c = '\n' || c = '\r' || c = '\x0b' || c = '\x0c'

/-- Python `s.strip()` (restricted to ASCII whitespace). -/
def pyStrip (s : String) : String :=
  String.mk ((s.data.dropWhile isPySpace).reverse.dropWhile isPySpace).reverse

/-- Worker for `pySplitlines`: splits at `\n`, `\r\n` and `\r`,
accumulating the current segment in reverse. -/
def splitlinesGo : List Char → List Char → List String
  | [], acc => if acc.isEmpty then [] else [String.mk acc.reverse]
  | '\r' :: '\n' :: rest, acc => String.mk acc.reverse :: splitlinesGo rest []
  | '\n' :: rest, acc => String.mk acc.reverse :: splitlinesGo rest []
  | '\r' :: rest, acc => String.mk acc.reverse :: splitlinesGo rest []
  | c :: rest, acc => splitlinesGo rest (c :: acc)

/-- Python `s.splitlines()` (on the line breaks `\n`, `\r\n`, `\r`). -/
def pySplitlines (s : String) : List String := splitlinesGo s.data []

/-- Index of the last occurrence of `c` (Python `str.rfind`, as an
`Option` instead of `-1`). -/
def lastIdxOf (c : Char) : List Char → Option Nat
  | [] => none
  | a :: rest =>
    match lastIdxOf c rest with
    | some i => some (i + 1)
    | none => if a = c then some 0 else none

/-- `pathlib.PurePath.suffix` of a filename: the final `.ext` when the
last dot is neither the first nor the last character, else `""`. -/
def pySuffix (name : String) : String :=
  match lastIdxOf '.' name.data with
  | some i => if 0 < i && i < name.data.length - 1 then String.mk (name.data.drop i) else ""
  | none => ""

/-- `pathlib.PurePath.stem` of a filename: the name with `pySuffix`
removed. -/
def pyStem (name : String) : String :=
  match lastIdxOf '.' name.data with
  | some i => if 0 < i && i < name.data.length - 1 then String.mk (name.data.take i) else name
  | none => name

/-! ### Data model: stat results and the stability ledger -/

/-- The fields of `os.stat_result` the pipeline reads. -/
structure FileStat where
  st_size : Nat
  st_mtime : Int
deriving DecidableEq

/-- One ledger entry (`{"size": ..., "mtime": ..., "seen": ...}`),
keyed by resolved path. -/
structure StabilityRecord where
  size : Nat
  mtime : Int
  seen : Int
deriving DecidableEq

/-- The in-memory ledger `dict` (`state` in the source): resolved path
string to `StabilityRecord`. -/
abbrev StateMap := List (String × StabilityRecord)

/-- Python `state.get(key)`. -/
def lookupState : StateMap → String → Option StabilityRecord
  | [], _ => none
  | (k, v) :: rest, key => if k = key then some v else lookupState rest key

/-- Python `state[key] = v` (replace or append). -/
def setState : StateMap → String → StabilityRecord → StateMap
  | [], key, v => [(key, v)]
  | (k, w) :: rest, key, v =>
    if k = key then (key, v) :: rest else (k, w) :: setState rest key v

/-- `is_file_stable(path, state, stable_seconds)` from the source.  The
`stat` argument is `none` when `path.stat()` raises `FileNotFoundError`;
`resolved_key` is `str(path.resolve())`; `now` is `time.time()`. -/
def is_file_stable (stat : Option FileStat) (resolved_key : String) (state : StateMap)
    (now stable_seconds : Int) : Bool :=
  match stat with
  | none => false
  | some st =>
    let age := now - st.st_mtime
    let prev := lookupState state resolved_key
    if stable_seconds > 0 && age < stable_seconds then false
    else
      match prev with
      | some p => if p.size ≠ st.st_size || p.mtime ≠ st.st_mtime then false else true
      | none => true

/-- The stability-gate rule as the specification words it: false when the
path cannot be stat'ed; false when the threshold is positive and the age
is below it; false when a prior record differs in size or mtime;
otherwise true. -/
def is_file_stable_spec (stat : Option FileStat) (resolved_key : String) (state : StateMap)
    (now stable_seconds : Int) : Bool :=
  match stat with
  | none => false
  | some st =>
    if stable_seconds > 0 && now - st.st_mtime < stable_seconds then false
    else if (lookupState state resolved_key).any
        (fun p => p.size ≠ st.st_size || p.mtime ≠ st.st_mtime) then false
    else true

/-- `mark_seen(path, state)`: `stat` is `none` when `path.stat()` raises
`FileNotFoundError` (then the call is a no-op); `now` is `time.time()`. -/
def mark_seen (stat : Option FileStat) (resolved_key : String) (now : Int)
    (state : StateMap) : StateMap :=
  match stat with
  | none => state
  | some st => setState state resolved_key ⟨st.st_size, st.st_mtime, now⟩

/-- A ledger record, when present, agrees with the current stat values. -/
def record_matches (r : Option StabilityRecord) (st : FileStat) : Bool :=
  match r with
  | none => true
  | some p => p.size = st.st_size && p.mtime = st.st_mtime

/-! ### `save_state` as a state machine -/

/-- The module-level mutable state consulted by `save_state`:
`STATE_FILE` and `_warned_state_disabled`. -/
structure LedgerProcState where
  state_file : Option String
  warned_state_disabled : Bool
deriving DecidableEq

/-- The on-disk state `save_state` touches: the persisted ledger file
content and whether the `.json.tmp` temp file is present. -/
structure LedgerFs where
  persisted : Option StateMap
  tmp_present : Bool
deriving DecidableEq

/-- Log lines `save_state` can emit. -/
inductive LogEvent
  | info_state_disabled
  | warn_save_failed (state_file : String)
deriving DecidableEq

/-- `save_state(state)` from the source.  `write_ok` says whether the
write-temp-then-`os.replace` sequence succeeds; on failure the source
logs at most once, best-effort unlinks the temp file, and sets
`STATE_FILE = None`.  The function itself never propagates an
exception.  Returns the new process state, the new filesystem state and
the log lines emitted. -/
def save_state (ps : LedgerProcState) (fs : LedgerFs) (state : StateMap)
    (write_ok : Bool) : LedgerProcState × LedgerFs × List LogEvent :=
  match ps.state_file with
  | none =>
    if ps.warned_state_disabled then (ps, fs, [])
    else ({ ps with warned_state_disabled := true }, fs, [.info_state_disabled])
  | some sf =>
    if write_ok then
      (ps, { persisted := some state, tmp_present := false }, [])
    else
      (⟨none, true⟩, { fs with tmp_present := false },
       if ps.warned_state_disabled then [] else [.warn_save_failed sf])

/-! ### State-file location selection -/

/-- Environment consulted when resolving the state-file location:
`SCRUBEXIF_STATE` (absent or its string value) and a probe telling
whether `_validate_writable_path` succeeds for a candidate (it
creates and deletes a temp file in the candidate's parent). -/
structure StateEnv where
  scrubexif_state : Option String
  writable : String → Bool

/-- The `/photos` then `/tmp` default chain inside
`_resolve_state_path_from_env`. -/
def resolve_state_defaults (e : StateEnv) : Option String :=
  if e.writable "/photos/.scrubexif_state.json" then some "/photos/.scrubexif_state.json"
  else if e.writable "/tmp/.scrubexif_state.json" then some "/tmp/.scrubexif_state.json"
  else none

/-- `_resolve_state_path_from_env()` from the source.  An empty
`SCRUBEXIF_STATE` is falsy in Python and falls to the defaults; a
nonempty one is validated and, when invalid, disables state without
trying the defaults. -/
def resolve_state_path_from_env (e : StateEnv) : Option String :=
  match e.scrubexif_state with
  | some env =>
    if env ≠ "" then
      if e.writable env then some env else none
    else resolve_state_defaults e
  | none => resolve_state_defaults e

/-- The `--state-file` handling in `_run_inner` layered over
`_resolve_state_path_from_env`: a sentinel (`disabled`, `none`, `-`,
after strip and lowercase) disables state; any other explicit value is
validated and, when invalid, disables state. -/
def resolve_state_file (cli_state_file : Option String) (e : StateEnv) : Option String :=
  match cli_state_file with
  | some raw =>
    let choice := (pyStrip raw).toLower
    if choice = "disabled" || choice = "none" || choice = "-" then none
    else if e.writable raw then some raw else none
  | none => resolve_state_path_from_env e

/-- The selection rule as the claim words it: try the CLI override, the
environment path, `/photos/.scrubexif_state.json` and
`/tmp/.scrubexif_state.json` in that order, choose the first candidate
that validates, and disable persistence only when none validates. -/
def resolve_state_file_claim (cli_state_file : Option String) (e : StateEnv) : Option String :=
  (cli_state_file.toList ++ e.scrubexif_state.toList ++
    ["/photos/.scrubexif_state.json", "/tmp/.scrubexif_state.json"]).find? e.writable

/-- The amended selection rule: a sentinel CLI value disables state; a
present CLI override or a nonempty environment path is the only
candidate tried, and disables state when it fails validation; the
first-validated-wins chain over the two default locations applies only
when neither is given. -/
def resolve_state_file_amended (cli_state_file : Option String) (e : StateEnv) : Option String :=
  match cli_state_file with
  | some raw =>
    if (pyStrip raw).toLower = "disabled" || (pyStrip raw).toLower = "none"
        || (pyStrip raw).toLower = "-" then none
    else if e.writable raw then some raw else none
  | none =>
    match e.scrubexif_state with
    | some env =>
      if env = "" then
        ["/photos/.scrubexif_state.json", "/tmp/.scrubexif_state.json"].find? e.writable
      else if e.writable env then some env else none
    | none =>
      ["/photos/.scrubexif_state.json", "/tmp/.scrubexif_state.json"].find? e.writable

/-! ### Temp/partial classifier -/

/-- `TEMP_SUFFIXES` from the source. -/
def TEMP_SUFFIXES : List String :=
  [".tmp", ".part", ".partial", ".crdownload", ".download", ".upload", ".cache",
   ".swp", ".swx", ".lck"]

/-- `TEMP_PREFIXES` from the source. -/
def TEMP_PREFIXES : List String := [".", "~", "._"]

/-- `is_probably_temp(path)` from the source, as a function of
`path.name`. -/
def is_probably_temp (name : String) : Bool :=
  if TEMP_PREFIXES.any (fun p => pyStartsWith name p) then true
  else
    let low := name.toLower
    if TEMP_SUFFIXES.contains (pySuffix name).toLower then true
    else TEMP_SUFFIXES.any (fun suf => pyEndsWith low suf)

/-- The classifier rule as the claim words it: a fixed temp prefix, or a
fixed temp extension matched either as the exact (lowercased) extension
or as a case-insensitive trailing substring of the name. -/
def is_probably_temp_claim (name : String) : Bool :=
  TEMP_PREFIXES.any (fun p => pyStartsWith name p)
    || TEMP_SUFFIXES.contains (pySuffix name).toLower
    || TEMP_SUFFIXES.any (fun suf => pyEndsWith name.toLower suf)

/-! ### scrub_file -/

/-- `ScrubResult` from the source (paths as strings). -/
structure ScrubResult where
  input_path : String
  output_path : Option String
  status : String
  error_message : Option String
  duplicate_path : Option String
deriving DecidableEq

/-- Filesystem mutations `scrub_file` can perform, in order. -/
inductive FsEffect
  | unlink_input
  | move_input (target : String)
  | run_exiftool (in_place : Bool) (output : Option String)
  | delete_original
deriving DecidableEq

/-- The filesystem/subprocess facts one `scrub_file` call probes.
`errors_dir` lists the filenames currently present in `ERRORS_DIR`;
the two `resolves` fields are the results of the `Path.resolve()`
comparisons the source makes when an output directory is given. -/
structure ScrubFileEnv where
  input_path : String
  input_name : String
  output_file_is_symlink : Bool
  output_file_exists : Bool
  input_resolves_to_output_file : Bool
  input_resolves_to_output_dir : Bool
  errors_dir : List String
  exiftool_returncode : Int
  exiftool_stderr : String
  input_exists_after : Bool
deriving DecidableEq

/-- The disambiguated quarantine name `f"{stem}_{count}{suffix}"` built
inside the `move` duplicate branch. -/
def dupCandidate (name : String) (count : Nat) : String :=
  pyStem name ++ "_" ++ natDecimal count ++ pySuffix name

/-- The `while target.exists(): target = ...; count += 1` loop of the
`move` duplicate branch, with fuel for structural recursion
(`existing.length + 2` is always sufficient). -/
def dupLoop (existing : List String) (name : String) : Nat → Nat → String → String
  | 0, _, target => target
  | fuel + 1, count, target =>
    if target ∈ existing then dupLoop existing name fuel (count + 1) (dupCandidate name count)
    else target

/-- The final quarantine filename chosen for `name` against the names
already in the errors directory. -/
def dup_move_target (existing : List String) (name : String) : String :=
  dupLoop existing name (existing.length + 2) 1 name

/-- `err_msg` in `scrub_file`:
`result.stderr.strip().splitlines()[0] if result.stderr else "Unknown error"`.
`none` models the `IndexError` raised when `stderr` is nonempty but
whitespace-only (then `splitlines()` of the stripped string is empty). -/
def first_error_line (stderr : String) : Option String :=
  if stderr = "" then some "Unknown error"
  else (pySplitlines (pyStrip stderr)).head?

/-- The tail of `scrub_file` from the dry-run check on: dry-run
reporting, the exiftool invocation, error interpretation, and the
optional delete of the original. -/
def scrub_exec (e : ScrubFileEnv) (output_path : Option String) (output_file : String)
    (delete_original dry_run : Bool) : Except String (ScrubResult × List FsEffect) :=
  if dry_run then .ok (⟨e.input_path, some output_file, "scrubbed", none, none⟩, [])
  else
    let in_place := output_path.isNone || e.input_resolves_to_output_dir
    let run := FsEffect.run_exiftool in_place (if in_place then none else some output_file)
    if e.exiftool_returncode ≠ 0 then
      match first_error_line e.exiftool_stderr with
      | some msg => .ok (⟨e.input_path, some output_file, "error", some msg, none⟩, [run])
      | none => .error "IndexError: list index out of range"
    else if delete_original && !in_place && e.input_exists_after then
      .ok (⟨e.input_path, some output_file, "scrubbed", none, none⟩, [run, .delete_original])
    else
      .ok (⟨e.input_path, some output_file, "scrubbed", none, none⟩, [run])

/-- `scrub_file` from the source.  `output_path` is the output
directory argument (`none` for the in-place call).  Returns the
`ScrubResult` and the ordered filesystem mutations, or `Except.error`
when an exception escapes.  Console output and `show_tags` side prints
are not modelled; the symlink-refusal message uses the container path
(the host-path rewrite is display-only). -/
def scrub_file (e : ScrubFileEnv) (output_path : Option String)
    (delete_original dry_run : Bool) (on_duplicate : Option String) :
    Except String (ScrubResult × List FsEffect) :=
  let output_file := match output_path with
    | some dir => dir ++ "/" ++ e.input_name
    | none => e.input_path
  if output_path.isSome && e.output_file_is_symlink then
    .ok (⟨e.input_path, some output_file, "error",
          some ("Destination is a symlink; refusing to scrub into " ++ output_file), none⟩, [])
  else
    let same_file := match output_path with
      | none => true
      | some _ => e.input_resolves_to_output_file
    if e.output_file_exists && !same_file then
      if dry_run then
        .ok (⟨e.input_path, some output_file, "duplicate", none, none⟩, [])
      else if on_duplicate = some "delete" then
        .ok (⟨e.input_path, some output_file, "duplicate", none, none⟩, [.unlink_input])
      else if on_duplicate = some "move" then
        .ok (⟨e.input_path, some output_file, "duplicate", none,
              some (dup_move_target e.errors_dir e.input_name)⟩,
             [.move_input (dup_move_target e.errors_dir e.input_name)])
      else scrub_exec e output_path output_file delete_original dry_run
    else scrub_exec e output_path output_file delete_original dry_run

/-! ### ScrubSummary -/

/-- The counters of `ScrubSummary` (`started_at` is replaced by the
measured duration passed to the rendering functions). -/
structure ScrubSummary where
  total : Nat
  scrubbed : Nat
  skipped : Nat
  duplicates_deleted : Nat
  duplicates_moved : Nat
  errors : Nat
deriving DecidableEq

/-- A fresh summary (`ScrubSummary.__init__`). -/
def ScrubSummary.init : ScrubSummary := ⟨0, 0, 0, 0, 0, 0⟩

/-- `ScrubSummary.update(result)` from the source. -/
def ScrubSummary.update (s : ScrubSummary) (result : ScrubResult) : ScrubSummary :=
  let s1 := { s with total := s.total + 1 }
  if result.status = "scrubbed" then { s1 with scrubbed := s1.scrubbed + 1 }
  else if result.status = "skipped" then { s1 with skipped := s1.skipped + 1 }
  else if result.status = "duplicate" then
    if result.duplicate_path.isSome then
      { s1 with duplicates_moved := s1.duplicates_moved + 1 }
    else
      { s1 with duplicates_deleted := s1.duplicates_deleted + 1 }
  else if result.status = "error" then { s1 with errors := s1.errors + 1 }
  else s1

/-- The sum of the five outcome counters. -/
def counterSum (s : ScrubSummary) : Nat :=
  s.scrubbed + s.skipped + s.duplicates_moved + s.duplicates_deleted + s.errors

/-- `{duration:.3f}` with the run duration in milliseconds (float
rounding is modelled as truncation). -/
def format3 (ms : Nat) : String :=
  natDecimal (ms / 1000) ++ "." ++
    (if ms % 1000 < 10 then "00" else if ms % 1000 < 100 then "0" else "")
    ++ natDecimal (ms % 1000)

/-- `{duration:.2f}` with the run duration in milliseconds (float
rounding is modelled as truncation). -/
def format2 (ms : Nat) : String :=
  natDecimal (ms / 1000) ++ "." ++
    (if ms / 10 % 100 < 10 then "0" else "") ++ natDecimal (ms / 10 % 100)

/-- The machine-parsable one-liner printed by `ScrubSummary.print`. -/
def machine_summary_line (s : ScrubSummary) (duration_ms : Nat) : String :=
  "SCRUBEXIF_SUMMARY " ++
    "total=" ++ natDecimal s.total ++ " " ++
    "scrubbed=" ++ natDecimal s.scrubbed ++ " " ++
    "skipped=" ++ natDecimal s.skipped ++ " " ++
    "errors=" ++ natDecimal s.errors ++ " " ++
    "duplicates_deleted=" ++ natDecimal s.duplicates_deleted ++ " " ++
    "duplicates_moved=" ++ natDecimal s.duplicates_moved ++ " " ++
    "duration=" ++ format3 duration_ms

/-- The full sequence of lines printed by `ScrubSummary.print`. -/
def ScrubSummary.print_lines (s : ScrubSummary) (duration_ms : Nat) : List String :=
  ["📊 Summary:",
   "  Total JPEGs found        : " ++ natDecimal s.total,
   "  Successfully scrubbed    : " ++ natDecimal s.scrubbed,
   "  Skipped (unstable/temp)  : " ++ natDecimal s.skipped,
   "  Errors                   : " ++ natDecimal s.errors]
  ++ (if s.duplicates_deleted ≠ 0 then
        ["  Duplicates deleted       : " ++ natDecimal s.duplicates_deleted] else [])
  ++ (if s.duplicates_moved ≠ 0 then
        ["  Duplicates moved         : " ++ natDecimal s.duplicates_moved] else [])
  ++ ["  Duration                 : " ++ format2 duration_ms ++ "s",
      machine_summary_line s duration_ms]

/-! ## Theorems -/

/-- C1: for every path, ledger mapping, and threshold, the stability
gate `is_file_stable` returns false if the path cannot be stat'ed;
otherwise, with age = now - mtime, it returns false if the threshold is
positive and age < threshold; otherwise it returns false if a prior
ledger record exists for the resolved path whose recorded size or mtime
differs from the current stat values; and in all remaining cases it
returns true. -/
theorem is_file_stable_matches_spec (stat : Option FileStat) (resolved_key : String)
    (state : StateMap) (now stable_seconds : Int) :
    is_file_stable stat resolved_key state now stable_seconds =
      is_file_stable_spec stat resolved_key state now stable_seconds := by
  cases stat with
  | none => rfl
  | some st =>
    simp only [is_file_stable, is_file_stable_spec]
    cases h : lookupState state resolved_key <;> split_ifs <;> simp_all

/-- C7: `is_probably_temp` is a total boolean function of the filename
alone, true exactly when the name starts with one of the fixed temp
prefixes or its suffix matches one of the fixed temp extensions,
checked both as the exact (lowercased) extension and as a
case-insensitive trailing substring of the name. -/
theorem is_probably_temp_matches_spec (name : String) :
    is_probably_temp name = is_probably_temp_claim name := by
  simp only [is_probably_temp, is_probably_temp_claim]
  split_ifs <;> simp_all

/-- C2: when a save of the ledger fails, `save_state` (which never
propagates the exception) logs the warning only if it has not warned
before, leaves no temp file behind, does not touch the persisted
content, and permanently disables persistence by clearing the state
file, after which every subsequent save call is a no-op that emits no
further log lines. -/
theorem save_state_failure_disables_persistence (sf : String) (warned : Bool)
    (fs : LedgerFs) (state : StateMap) :
    (save_state ⟨some sf, warned⟩ fs state false).1 = ⟨none, true⟩ ∧
    (save_state ⟨some sf, warned⟩ fs state false).2.1 = ⟨fs.persisted, false⟩ ∧
    (save_state ⟨some sf, warned⟩ fs state false).2.2 =
      (if warned then [] else [.warn_save_failed sf]) ∧
    (∀ fs2 state2 ok2,
      save_state (save_state ⟨some sf, warned⟩ fs state false).1 fs2 state2 ok2 =
        ((save_state ⟨some sf, warned⟩ fs state false).1, fs2, [])) :=
  ⟨rfl, rfl, rfl, fun _ _ _ => rfl⟩

/-- The default chain of `_resolve_state_path_from_env` is
first-validated-wins over the two default locations. -/
theorem resolve_state_defaults_eq_find (e : StateEnv) :
    resolve_state_defaults e =
      ["/photos/.scrubexif_state.json", "/tmp/.scrubexif_state.json"].find? e.writable := by
  cases h1 : e.writable "/photos/.scrubexif_state.json" <;>
    cases h2 : e.writable "/tmp/.scrubexif_state.json" <;>
      simp [resolve_state_defaults, List.find?, h1, h2]

/-- C3 counterexample: with no CLI override, `SCRUBEXIF_STATE` set to a
path that fails validation, and `/photos/.scrubexif_state.json`
writable, the code disables persistence outright, while the claimed
first-candidate-that-validates rule would select the `/photos`
default. -/
theorem resolve_state_file_counterexample :
    resolve_state_file none
        ⟨some "/bad/state.json", fun s => s == "/photos/.scrubexif_state.json"⟩ = none ∧
    resolve_state_file_claim none
        ⟨some "/bad/state.json", fun s => s == "/photos/.scrubexif_state.json"⟩ =
      some "/photos/.scrubexif_state.json" := ⟨rfl, rfl⟩

/-- C3 (amended): state-file selection considers the explicit CLI
override, the `SCRUBEXIF_STATE` path, `/photos/.scrubexif_state.json`
and `/tmp/.scrubexif_state.json` in that priority order, but a present
CLI override (non-sentinel) or a nonempty environment path is the only
candidate validated — if it fails validation persistence is disabled
immediately; the first-validated-wins fall-through applies only across
the two default locations when neither override is given. -/
theorem resolve_state_file_matches_amended_spec (cli : Option String) (e : StateEnv) :
    resolve_state_file cli e = resolve_state_file_amended cli e := by
  cases cli with
  | some raw => rfl
  | none =>
    simp only [resolve_state_file, resolve_state_file_amended, resolve_state_path_from_env]
    cases h : e.scrubexif_state with
    | none => exact resolve_state_defaults_eq_find e
    | some env =>
      by_cases he : env = "" <;> simp [he, resolve_state_defaults_eq_find e]

/-- Reading back a digit character gives the digit. -/
theorem digitVal10_digitChar10 {d : Nat} (h : d < 10) :
    digitVal10 (digitChar10 d) = d := by
  interval_cases d <;> rfl

/-- `natDigitsAux` with sufficient fuel produces the little-endian
digits of its input. -/
theorem decimalValLE_natDigitsAux : ∀ fuel n, n ≤ fuel →
    decimalValLE (natDigitsAux fuel n) = n
  | 0, n, h => by
    simp only [natDigitsAux, decimalValLE]
    omega
  | fuel + 1, n, h => by
    by_cases h0 : n = 0
    · simp [natDigitsAux, h0, decimalValLE]
    · have hdiv : n / 10 < n := Nat.div_lt_self (Nat.pos_of_ne_zero h0) (by norm_num)
      have ih := decimalValLE_natDigitsAux fuel (n / 10) (by omega)
      simp only [natDigitsAux, h0, if_false, decimalValLE, ih,
        digitVal10_digitChar10 (Nat.mod_lt n (by norm_num))]
      omega

/-- `natDecimalVal` is a left inverse of `natDecimal`. -/
theorem natDecimalVal_natDecimal (n : Nat) : natDecimalVal (natDecimal n) = n := by
  by_cases h0 : n = 0
  · subst h0; rfl
  · simp only [natDecimal, h0, if_false, natDecimalVal]
    rw [List.reverse_reverse]
    exact decimalValLE_natDigitsAux n n le_rfl

/-- Decimal rendering of naturals is injective. -/
theorem natDecimal_injective : Function.Injective natDecimal := by
  intro a b h
  have ha := natDecimalVal_natDecimal a
  rw [h, natDecimalVal_natDecimal] at ha
  omega

/-- A filename is its stem followed by its suffix. -/
theorem pyStem_data_append_pySuffix (name : String) :
    (pyStem name).data ++ (pySuffix name).data = name.data := by
  cases h : lastIdxOf '.' name.data with
  | none => simp [pyStem, pySuffix, h]
  | some i =>
    simp only [pyStem, pySuffix, h]
    split_ifs <;> simp [List.take_append_drop]

/-- Distinct counters give distinct disambiguated quarantine names. -/
theorem dupCandidate_injective (name : String) :
    Function.Injective (dupCandidate name) := by
  intro a b h
  apply natDecimal_injective
  have hd : (dupCandidate name a).data = (dupCandidate name b).data := by rw [h]
  simp only [dupCandidate, String.data_append, List.append_assoc,
    List.append_cancel_left_eq] at hd
  have hdg : (natDecimal a).data = (natDecimal b).data :=
    List.append_cancel_right hd
  have hv : natDecimalVal (natDecimal a) = natDecimalVal (natDecimal b) := by
    simp only [natDecimalVal, hdg]
  rw [natDecimalVal_natDecimal, natDecimalVal_natDecimal] at hv
  exact hv ▸ rfl

/-- A disambiguated quarantine name is never the original filename
(it is strictly longer). -/
theorem dupCandidate_ne_name (name : String) (count : Nat) :
    dupCandidate name count ≠ name := by
  intro h
  have hd : (dupCandidate name count).data = name.data := by rw [h]
  rw [← pyStem_data_append_pySuffix name] at hd
  simp only [dupCandidate, String.data_append, List.append_assoc,
    List.append_cancel_left_eq] at hd
  have := congrArg List.length hd
  simp [String.data_append] at this
  omega

/-- A target not present in the errors directory is returned as-is. -/
theorem dupLoop_of_not_mem (existing : List String) (name : String)
    (fuel count : Nat) (target : String) (h : target ∉ existing) :
    dupLoop existing name fuel count target = target := by
  cases fuel <;> simp [dupLoop, h]

/-- When the starting target collides and a free disambiguated name
exists within the fuel window, the loop returns the least free
disambiguated name at or after the starting counter. -/
theorem dupLoop_finds_least (existing : List String) (name : String) :
    ∀ fuel count target, target ∈ existing →
    (∃ j, count ≤ j ∧ j < count + fuel ∧ dupCandidate name j ∉ existing) →
    ∃ k, count ≤ k ∧ dupLoop existing name fuel count target = dupCandidate name k ∧
      dupCandidate name k ∉ existing ∧
      ∀ i, count ≤ i → i < k → dupCandidate name i ∈ existing
  | 0, count, target, _, hex => by
    obtain ⟨j, hj1, hj2, _⟩ := hex
    omega
  | fuel + 1, count, target, ht, hex => by
    simp only [dupLoop, ht, if_true]
    by_cases hc : dupCandidate name count ∈ existing
    · obtain ⟨j, hj1, hj2, hj3⟩ := hex
      have hjne : j ≠ count := fun he => hj3 (he ▸ hc)
      obtain ⟨k, hk1, hk2, hk3, hk4⟩ :=
        dupLoop_finds_least existing name fuel (count + 1) (dupCandidate name count) hc
          ⟨j, by omega, by omega, hj3⟩
      exact ⟨k, by omega, hk2, hk3, fun i hi1 hi2 => by
        rcases Nat.eq_or_lt_of_le hi1 with he | hlt
        · exact he ▸ hc
        · exact hk4 i hlt hi2⟩
    · refine ⟨count, le_rfl, ?_, hc, fun i hi1 hi2 => absurd (lt_of_le_of_lt hi1 hi2) (lt_irrefl _)⟩
      exact dupLoop_of_not_mem existing name fuel (count + 1) _ hc

/-- There is always a free disambiguated name with counter in
`[1, existing.length + 2]`. -/
theorem exists_free_dupCandidate (existing : List String) (name : String) :
    ∃ j, 1 ≤ j ∧ j < existing.length + 3 ∧ dupCandidate name j ∉ existing := by
  by_contra hcon
  push_neg at hcon
  set lst := (List.range (existing.length + 2)).map (fun i => dupCandidate name (i + 1)) with hlst
  have hnd : lst.Nodup := by
    refine (List.nodup_range _).map ?_
    intro a b hab
    have := dupCandidate_injective name hab
    omega
  have hsub : lst.toFinset ⊆ existing.toFinset := by
    intro x hx
    rw [List.mem_toFinset] at hx ⊢
    simp only [hlst, List.mem_map, List.mem_range] at hx
    obtain ⟨i, hi, rfl⟩ := hx
    exact hcon (i + 1) (by omega) (by omega)
  have h1 : lst.toFinset.card = existing.length + 2 := by
    rw [List.toFinset_card_of_nodup hnd]
    simp [hlst]
  have h2 := Finset.card_le_card hsub
  have h3 : existing.toFinset.card ≤ existing.length := by
    rw [List.card_toFinset]
    exact List.Sublist.length_le (List.dedup_sublist existing)
  omega

/-- The chosen quarantine filename: the original name when free,
otherwise the least disambiguated name with counter at least 1; in
every case it does not collide with an existing file. -/
theorem dup_move_target_spec (existing : List String) (name : String) :
    dup_move_target existing name ∉ existing ∧
    (name ∉ existing → dup_move_target existing name = name) ∧
    (name ∈ existing → ∃ k, 1 ≤ k ∧
      dup_move_target existing name = dupCandidate name k ∧
      ∀ i, 1 ≤ i → i < k → dupCandidate name i ∈ existing) := by
  by_cases hn : name ∈ existing
  · obtain ⟨j, hj1, hj2, hj3⟩ := exists_free_dupCandidate existing name
    obtain ⟨k, hk1, hk2, hk3, hk4⟩ :=
      dupLoop_finds_least existing name (existing.length + 2) 1 name hn
        ⟨j, hj1, by omega, hj3⟩
    exact ⟨by rw [dup_move_target, hk2]; exact hk3,
      fun h => absurd hn h,
      fun _ => ⟨k, hk1, by rw [dup_move_target, hk2], hk4⟩⟩
  · exact ⟨by rw [dup_move_target, dupLoop_of_not_mem existing name _ _ _ hn]; exact hn,
      fun _ => by rw [dup_move_target, dupLoop_of_not_mem existing name _ _ _ hn],
      fun h => absurd h hn⟩

/-- C4: under the `move` duplicate policy, when the destination output
exists and is not the same file as the input, `scrub_file` moves the
input into the errors (quarantine) directory under its original
filename if free, otherwise under the first free `stem_k.ext` name with
the counter incrementing from 1; the duplicate outcome carries that
final quarantine path, and the chosen name never collides with an
existing quarantined file. -/
theorem scrub_file_move_duplicate_quarantine
    (ipath iname dir : String) (existing : List String) (rdir : Bool)
    (rc : Int) (stderr : String) (iex del : Bool) :
    scrub_file ⟨ipath, iname, false, true, false, rdir, existing, rc, stderr, iex⟩
        (some dir) del false (some "move") =
      .ok (⟨ipath, some (dir ++ "/" ++ iname), "duplicate", none,
            some (dup_move_target existing iname)⟩,
           [.move_input (dup_move_target existing iname)]) ∧
    dup_move_target existing iname ∉ existing ∧
    (iname ∉ existing → dup_move_target existing iname = iname) ∧
    (iname ∈ existing → ∃ k, 1 ≤ k ∧
      dup_move_target existing iname = dupCandidate iname k ∧
      ∀ i, 1 ≤ i → i < k → dupCandidate iname i ∈ existing) := by
  obtain ⟨hfree, hname, hcoll⟩ := dup_move_target_spec existing iname
  refine ⟨?_, hfree, hname, hcoll⟩
  simp [scrub_file]

/-- C4 witness: a third repeat of `d.jpg` (with `d.jpg` and `d_1.jpg`
already quarantined) is moved as `d_2.jpg`. -/
theorem scrub_file_move_duplicate_quarantine_witness :
    scrub_file ⟨"/photos/input/d.jpg", "d.jpg", false, true, false, false,
        ["d.jpg", "d_1.jpg"], 0, "", true⟩ (some "/photos/output") false false (some "move") =
      .ok (⟨"/photos/input/d.jpg", some "/photos/output/d.jpg", "duplicate", none,
            some (dup_move_target ["d.jpg", "d_1.jpg"] "d.jpg")⟩,
           [.move_input (dup_move_target ["d.jpg", "d_1.jpg"] "d.jpg")]) ∧
    dup_move_target ["d.jpg", "d_1.jpg"] "d.jpg" = "d_2.jpg" := by
  have h := scrub_file_move_duplicate_quarantine "/photos/input/d.jpg" "d.jpg"
      "/photos/output" ["d.jpg", "d_1.jpg"] false 0 "" true false
  exact ⟨h.1, by rfl⟩

/-- C5 counterexample: in the in-place case (no separate output
directory) the destination is the input path itself; with the
destination a symbolic link, `scrub_file` does not return an error — it
proceeds, runs the tool in overwrite mode, and reports `scrubbed`.  The
symlink refusal in the source is guarded by `if output_path and ...`,
so it is skipped entirely for the in-place path. -/
theorem scrub_file_inplace_symlink_counterexample :
    scrub_file ⟨"/photos/a.jpg", "a.jpg", true, true, true, true, [], 0, "", true⟩
        none false false (some "delete") =
      .ok (⟨"/photos/a.jpg", some "/photos/a.jpg", "scrubbed", none, none⟩,
           [.run_exiftool true none]) := rfl

/-- C5 (amended): when a separate output directory is given and the
destination output file is a symbolic link, `scrub_file` returns an
error outcome and performs no filesystem mutation; when no output
directory is given the check is not performed by `scrub_file` itself
(its in-place callers skip symlinks before invoking it). -/
theorem scrub_file_outputdir_symlink_refusal
    (ipath iname dir : String) (ex rres rdir : Bool) (existing : List String)
    (rc : Int) (stderr : String) (iex del dry : Bool) (ondup : Option String) :
    scrub_file ⟨ipath, iname, true, ex, rres, rdir, existing, rc, stderr, iex⟩
        (some dir) del dry ondup =
      .ok (⟨ipath, some (dir ++ "/" ++ iname), "error",
            some ("Destination is a symlink; refusing to scrub into "
              ++ (dir ++ "/" ++ iname)), none⟩, []) := by
  simp [scrub_file]

/-- C6: with a failing exit code and nonempty but whitespace-only
stderr, `scrub_file` does not produce an error outcome — the
`stderr.strip().splitlines()[0]` expression raises an uncaught
`IndexError` (stderr is truthy, so the generic-message branch is not
taken, and the stripped string has no lines).  The claim's promised
error outcome is therefore not returned at this input. -/
theorem scrub_file_whitespace_stderr_raises :
    scrub_file ⟨"/photos/a.jpg", "a.jpg", false, false, false, false, [], 1, "\n", true⟩
        (some "/photos/output") false false (some "delete") =
      .error "IndexError: list index out of range" := rfl

/-- Looking up a key just written returns the written record. -/
theorem lookupState_setState_self (m : StateMap) (key : String) (v : StabilityRecord) :
    lookupState (setState m key v) key = some v := by
  induction m with
  | nil => simp [setState, lookupState]
  | cons kv rest ih =>
    obtain ⟨k, w⟩ := kv
    by_cases hk : k = key <;> simp [setState, lookupState, hk, ih]

/-- Any number of `mark_seen` observations of an unchanged file keeps
the ledger record for it in agreement with the current stat values. -/
theorem record_matches_foldl_mark_seen (st : FileStat) (key : String)
    (times : List Int) (m0 : StateMap)
    (h0 : record_matches (lookupState m0 key) st = true) :
    record_matches
      (lookupState (times.foldl (fun m t => mark_seen (some st) key t m) m0) key)
      st = true := by
  induction times generalizing m0 with
  | nil => exact h0
  | cons t rest ih =>
    refine ih _ ?_
    simp [mark_seen, lookupState_setState_self, record_matches]

/-- C8: for a fixed existing file whose size and mtime never change and
a positive threshold, the stability gate's verdict equals the pure age
comparison `threshold ≤ now - mtime`, no matter how many intervening
`mark_seen` observations were recorded in the ledger. -/
theorem is_file_stable_monotone_observations (st : FileStat) (key : String)
    (m0 : StateMap) (times : List Int) (now thr : Int)
    (h0 : record_matches (lookupState m0 key) st = true) (hthr : 0 < thr) :
    is_file_stable (some st) key
        (times.foldl (fun m t => mark_seen (some st) key t m) m0) now thr
      = decide (thr ≤ now - st.st_mtime) := by
  have hm := record_matches_foldl_mark_seen st key times m0 h0
  simp only [is_file_stable]
  cases hl : lookupState (times.foldl (fun m t => mark_seen (some st) key t m) m0) key with
  | none =>
    by_cases hage : now - st.st_mtime < thr
    all_goals simp [hthr, hage]
    all_goals omega
  | some p =>
    rw [hl] at hm
    simp only [record_matches, Bool.and_eq_true, decide_eq_true_eq] at hm
    by_cases hage : now - st.st_mtime < thr
    all_goals simp [hthr, hage, hm.1, hm.2]
    all_goals omega

/-- C8 witness: a file of size 100 with mtime 0, observed three times,
is stable at `now = 200` with threshold 120. -/
theorem is_file_stable_monotone_observations_witness :
    is_file_stable (some ⟨100, 0⟩) "/photos/input/a.jpg"
        (([5, 30, 60] : List Int).foldl
          (fun m t => mark_seen (some ⟨100, 0⟩) "/photos/input/a.jpg" t m) [])
        200 120 = true := by
  have h := is_file_stable_monotone_observations ⟨100, 0⟩ "/photos/input/a.jpg" []
      [5, 30, 60] 200 120 (by rfl) (by norm_num)
  simpa using h

/-- One `update` with a recognised status bumps `total` and the sum of
the five outcome counters by exactly one, routing a duplicate to
`duplicates_moved` exactly when it carries a quarantine path. -/
theorem scrubSummary_update_step (s : ScrubSummary) (r : ScrubResult)
    (h : r.status = "scrubbed" ∨ r.status = "skipped" ∨ r.status = "duplicate" ∨
      r.status = "error") :
    (s.update r).total = s.total + 1 ∧ counterSum (s.update r) = counterSum s + 1 ∧
    (r.status = "duplicate" → r.duplicate_path.isSome = true →
      (s.update r).duplicates_moved = s.duplicates_moved + 1) ∧
    (r.status = "duplicate" → r.duplicate_path = none →
      (s.update r).duplicates_deleted = s.duplicates_deleted + 1) := by
  cases hd : r.duplicate_path <;>
    rcases h with h | h | h | h <;>
      simp [ScrubSummary.update, counterSum, h, hd] <;> omega

/-- Folding `update` over recognised results adds the list length to
both `total` and the counter sum. -/
theorem foldl_update_invariant (results : List ScrubResult) (s0 : ScrubSummary)
    (h : ∀ r ∈ results, r.status = "scrubbed" ∨ r.status = "skipped" ∨
      r.status = "duplicate" ∨ r.status = "error") :
    (results.foldl ScrubSummary.update s0).total = s0.total + results.length ∧
    counterSum (results.foldl ScrubSummary.update s0) =
      counterSum s0 + results.length := by
  induction results generalizing s0 with
  | nil => simp
  | cons r rest ih =>
    have hr := scrubSummary_update_step s0 r (h r (List.mem_cons_self r rest))
    have := ih (s0.update r) (fun x hx => h x (List.mem_cons_of_mem r hx))
    simp only [List.foldl_cons, List.length_cons]
    omega

/-- C10: starting from a fresh `ScrubSummary`, every `update` with a
status among scrubbed, skipped, duplicate, error increments `total` and
the sum of the five outcome counters by exactly one (a duplicate goes
to `duplicates_moved` when it carries a quarantine path and to
`duplicates_deleted` otherwise), so after any such sequence `total`
equals both the number of updates and the sum of the five counters. -/
theorem scrub_summary_total_invariant (results : List ScrubResult)
    (h : ∀ r ∈ results, r.status = "scrubbed" ∨ r.status = "skipped" ∨
      r.status = "duplicate" ∨ r.status = "error") :
    (results.foldl ScrubSummary.update ScrubSummary.init).total =
      counterSum (results.foldl ScrubSummary.update ScrubSummary.init) ∧
    (results.foldl ScrubSummary.update ScrubSummary.init).total = results.length ∧
    (∀ s r, r.status = "scrubbed" ∨ r.status = "skipped" ∨ r.status = "duplicate" ∨
        r.status = "error" →
      (ScrubSummary.update s r).total = s.total + 1 ∧
      counterSum (ScrubSummary.update s r) = counterSum s + 1 ∧
      (r.status = "duplicate" → r.duplicate_path.isSome = true →
        (ScrubSummary.update s r).duplicates_moved = s.duplicates_moved + 1) ∧
      (r.status = "duplicate" → r.duplicate_path = none →
        (ScrubSummary.update s r).duplicates_deleted = s.duplicates_deleted + 1)) := by
  have hinv := foldl_update_invariant results ScrubSummary.init h
  have h0 : ScrubSummary.init.total = 0 := rfl
  have h1 : counterSum ScrubSummary.init = 0 := rfl
  rw [h0, h1] at hinv
  exact ⟨by omega, by omega, fun s r hr => scrubSummary_update_step s r hr⟩

/-- C10 witness: a concrete scrubbed/moved-duplicate/error sequence
gives `total = 3 = counterSum`. -/
theorem scrub_summary_total_invariant_witness :
    (([⟨"a.jpg", some "o/a.jpg", "scrubbed", none, none⟩,
       ⟨"b.jpg", some "o/b.jpg", "duplicate", none, some "e/b.jpg"⟩,
       ⟨"c.jpg", some "o/c.jpg", "error", some "boom", none⟩] :
        List ScrubResult).foldl ScrubSummary.update ScrubSummary.init).total = 3 ∧
    counterSum
      (([⟨"a.jpg", some "o/a.jpg", "scrubbed", none, none⟩,
         ⟨"b.jpg", some "o/b.jpg", "duplicate", none, some "e/b.jpg"⟩,
         ⟨"c.jpg", some "o/c.jpg", "error", some "boom", none⟩] :
          List ScrubResult).foldl ScrubSummary.update ScrubSummary.init) = 3 := by
  have h := scrub_summary_total_invariant
      [⟨"a.jpg", some "o/a.jpg", "scrubbed", none, none⟩,
       ⟨"b.jpg", some "o/b.jpg", "duplicate", none, some "e/b.jpg"⟩,
       ⟨"c.jpg", some "o/c.jpg", "error", some "boom", none⟩]
      (by intro r hr; fin_cases hr <;> simp)
  refine ⟨?_, ?_⟩
  · rw [h.2.1]; rfl
  · rw [← h.1, h.2.1]; rfl

/-- A prefix of `s` is a prefix of `s ++ t`. -/
theorem startsWithChars_append_of_true (p s t : List Char)
    (h : startsWithChars p s = true) : startsWithChars p (s ++ t) = true := by
  induction p generalizing s with
  | nil => rfl
  | cons c cs ih =>
    cases s with
    | nil => simp [startsWithChars] at h
    | cons a as =>
      simp only [startsWithChars, Bool.and_eq_true] at h
      simp only [List.cons_append, startsWithChars, Bool.and_eq_true]
      exact ⟨h.1, ih as h.2⟩

/-- A pattern that mismatches within `s` (not merely by exhausting it)
also mismatches on `s ++ t`. -/
theorem startsWithChars_append_of_false (p s t : List Char)
    (h : startsWithChars p s = false) (hlen : p.length ≤ s.length) :
    startsWithChars p (s ++ t) = false := by
  induction p generalizing s with
  | nil => simp [startsWithChars] at h
  | cons c cs ih =>
    cases s with
    | nil => simp at hlen
    | cons a as =>
      simp only [List.cons_append, startsWithChars]
      cases hca : (decide (c = a)) with
      | false => simp
      | true =>
        simp only [startsWithChars, hca, Bool.true_and] at h
        simp only [Bool.true_and]
        exact ih as h (by simp at hlen; omega)

/-- String-level version of `startsWithChars_append_of_true`. -/
theorem pyStartsWith_append_true (a v pat : String)
    (h : pyStartsWith a pat = true) : pyStartsWith (a ++ v) pat = true := by
  simpa only [pyStartsWith, String.data_append] using
    startsWithChars_append_of_true pat.data a.data v.data h

/-- String-level version of `startsWithChars_append_of_false`. -/
theorem pyStartsWith_append_false (a v pat : String)
    (h : pyStartsWith a pat = false) (hlen : pat.data.length ≤ a.data.length) :
    pyStartsWith (a ++ v) pat = false := by
  simpa only [pyStartsWith, String.data_append] using
    startsWithChars_append_of_false pat.data a.data v.data h hlen

/-- C9: the lines printed at the end of a run contain exactly one line
starting with the machine-readable token, and that line is the fixed
token followed by the space-separated key=value pairs in the order
total, scrubbed, skipped, errors, duplicates_deleted,
duplicates_moved, duration, the duration rendered with three decimal
places. -/
theorem summary_machine_line_unique (s : ScrubSummary) (d : Nat) :
    (s.print_lines d).filter (fun l => pyStartsWith l "SCRUBEXIF_SUMMARY") =
      ["SCRUBEXIF_SUMMARY " ++
        "total=" ++ natDecimal s.total ++ " " ++
        "scrubbed=" ++ natDecimal s.scrubbed ++ " " ++
        "skipped=" ++ natDecimal s.skipped ++ " " ++
        "errors=" ++ natDecimal s.errors ++ " " ++
        "duplicates_deleted=" ++ natDecimal s.duplicates_deleted ++ " " ++
        "duplicates_moved=" ++ natDecimal s.duplicates_moved ++ " " ++
        "duration=" ++ format3 d] := by
  have hL1 : pyStartsWith "📊 Summary:" "SCRUBEXIF_SUMMARY" = false := by decide
  have hL2 : pyStartsWith ("  Total JPEGs found        : " ++ natDecimal s.total)
      "SCRUBEXIF_SUMMARY" = false :=
    pyStartsWith_append_false _ _ _ (by decide) (by decide)
  have hL3 : pyStartsWith ("  Successfully scrubbed    : " ++ natDecimal s.scrubbed)
      "SCRUBEXIF_SUMMARY" = false :=
    pyStartsWith_append_false _ _ _ (by decide) (by decide)
  have hL4 : pyStartsWith ("  Skipped (unstable/temp)  : " ++ natDecimal s.skipped)
      "SCRUBEXIF_SUMMARY" = false :=
    pyStartsWith_append_false _ _ _ (by decide) (by decide)
  have hL5 : pyStartsWith ("  Errors                   : " ++ natDecimal s.errors)
      "SCRUBEXIF_SUMMARY" = false :=
    pyStartsWith_append_false _ _ _ (by decide) (by decide)
  have hL6 : pyStartsWith ("  Duplicates deleted       : " ++ natDecimal s.duplicates_deleted)
      "SCRUBEXIF_SUMMARY" = false :=
    pyStartsWith_append_false _ _ _ (by decide) (by decide)
  have hL7 : pyStartsWith ("  Duplicates moved         : " ++ natDecimal s.duplicates_moved)
      "SCRUBEXIF_SUMMARY" = false :=
    pyStartsWith_append_false _ _ _ (by decide) (by decide)
  have hL8 : pyStartsWith ("  Duration                 : " ++ format2 d ++ "s")
      "SCRUBEXIF_SUMMARY" = false := by
    have hpre : pyStartsWith ("  Duration                 : " ++ format2 d)
        "SCRUBEXIF_SUMMARY" = false :=
      pyStartsWith_append_false _ _ _ (by decide) (by decide)
    have hlen : ("SCRUBEXIF_SUMMARY" : String).data.length ≤
        ("  Duration                 : " ++ format2 d).data.length := by
      rw [String.data_append, List.length_append]
      have hc : ("SCRUBEXIF_SUMMARY" : String).data.length ≤
          ("  Duration                 : " : String).data.length := by decide
      omega
    exact pyStartsWith_append_false _ _ _ hpre hlen
  have hM : pyStartsWith ("SCRUBEXIF_SUMMARY total=" ++ natDecimal s.total ++ " " ++
      "scrubbed=" ++ natDecimal s.scrubbed ++ " " ++
      "skipped=" ++ natDecimal s.skipped ++ " " ++
      "errors=" ++ natDecimal s.errors ++ " " ++
      "duplicates_deleted=" ++ natDecimal s.duplicates_deleted ++ " " ++
      "duplicates_moved=" ++ natDecimal s.duplicates_moved ++ " " ++
      "duration=" ++ format3 d) "SCRUBEXIF_SUMMARY" = true := by
    repeat apply pyStartsWith_append_true
    decide
  simp only [ScrubSummary.print_lines]
  split_ifs with h1 h2 <;>
    simp [List.filter_append, List.filter, hL1, hL2, hL3, hL4, hL5, hL6, hL7, hL8, hM,
      machine_summary_line]

end ScrubExif
